import Mathlib

/-!
# Verification of the OpenSec policy-gated action execution pipeline

Shallow embedding of the agent scripts `openclaw.py`, `sql_guardian.py`,
`validator.py` and `data_cleaner.py`.  External effects (HTTP calls to the
Bifrost generation endpoint, the OpenSec policy gateway, the relay router,
the filesystem and the SQLite store, plus the random generator and the
clock) are passed in explicitly as values/oracles; the Python control flow
around them is translated line by line.  A Python exception that the source
catches is modelled by a dedicated constructor of the outcome type; a
Python exception that the source does NOT catch makes the embedded function
return `none`.
-/

namespace OpenSec

/-! ## Python string primitives used by the scripts -/

/-- Python whitespace for `str.strip` / `str.split()`:
space, tab, newline, carriage return, vertical tab, form feed. -/
def pyIsSpace (c : Char) : Bool :=
  c = ' ' || c = '\t' || c = '\n' || c = '\r' || c = '\x0b' || c = '\x0c'

/-- Python `str.strip()` (no argument): drop whitespace from both ends. -/
def pyStrip (s : String) : String :=
  ⟨((s.data.dropWhile pyIsSpace).reverse.dropWhile pyIsSpace).reverse⟩

/-- One structural pass accumulating the current token (reversed). -/
def pySplitGo (cur : List Char) : List Char → List String
  | [] => if cur.isEmpty then [] else [⟨cur.reverse⟩]
  | c :: cs =>
    if pyIsSpace c then
      if cur.isEmpty then pySplitGo [] cs
      else ⟨cur.reverse⟩ :: pySplitGo [] cs
    else pySplitGo (c :: cur) cs

/-- Python `str.split()` (no argument): split on whitespace runs,
discarding empty pieces. -/
def pySplitWs (s : String) : List String :=
  pySplitGo [] s.data

/-- Python `str.upper()` on one ASCII character. -/
def asciiUpper (c : Char) : Char :=
  if 'a' ≤ c && c ≤ 'z' then Char.ofNat (c.toNat - 32) else c

/-- Python `str.upper()` (the scripts only apply it to ASCII text). -/
def pyUpper (s : String) : String :=
  ⟨s.data.map asciiUpper⟩

/-- Predicate `startsWithL hay needle`: `needle` is a prefix of `hay`. -/
def startsWithL : List Char → List Char → Bool
  | _, [] => true
  | [], _ :: _ => false
  | c :: cs, d :: ds => c = d && startsWithL cs ds

/-- Predicate `containsL hay needle`: `needle` occurs as a contiguous run in `hay`
(Python's `needle in hay`). -/
def containsL : List Char → List Char → Bool
  | [], needle => needle.isEmpty
  | c :: rest, needle => startsWithL (c :: rest) needle || containsL rest needle

/-- Python `needle in hay` on strings. -/
def containsS (hay needle : String) : Bool :=
  containsL hay.data needle.data

/-! ## The fallback-extraction regex of `openclaw.py`

`re.search(r'([\w/.-]+\.\w+)', task)`: leftmost match of
"one or more word/`/`/`.`/`-` characters, a literal dot, one or more word
characters", with the usual greedy backtracking of the first `+`. -/

/-- ASCII `\w`: letters, digits, underscore. -/
def isWordChar (c : Char) : Bool :=
  c.isAlphanum || c = '_'

/-- The character class `[\w/.-]`. -/
def isClassA (c : Char) : Bool :=
  isWordChar c || c = '/' || c = '.' || c = '-'

/-- Backtracking over the length of the `[\w/.-]+` part, longest first:
after consuming `len` class characters of `cs` we need a literal `'.'`
followed by a nonempty word-character run. -/
def tryLens (cs : List Char) : Nat → Option (List Char)
  | 0 => none
  | n + 1 =>
    match cs.drop (n + 1) with
    | '.' :: rest =>
      let w := rest.takeWhile isWordChar
      if w.isEmpty then tryLens cs n
      else some (cs.take (n + 1) ++ '.' :: w)
    | _ => tryLens cs n

/-- Try to match the pattern anchored at the head of `cs`. -/
def matchAt (cs : List Char) : Option (List Char) :=
  tryLens cs (cs.takeWhile isClassA).length

/-- Model of `re.search`: try each start position left to right. -/
def regexSearch : List Char → Option (List Char)
  | [] => none
  | c :: rest =>
    match matchAt (c :: rest) with
    | some m => some m
    | none => regexSearch rest

/-! ## `openclaw.py` -/

/-- Outcome of an HTTP request to the Bifrost generation endpoint, as the
caller observes it: a transport exception raised by `requests.post`, or a
completed response with a status code, the result of decoding the body and
extracting `choices[0].message.content` with defaulting `get`s
(`Except.error` when `response.json()` itself raises, `Except.ok none`
when the chain of defaulting `get`s yields no string), and the raw body
text. -/
inductive GenResp where
  | exn (msg : String)
  | resp (code : Nat) (json : Except String (Option String)) (text : String)

/-- The `try` block of `openclaw.run_agent` lines 60–65: extract and strip
the content field; an empty or missing field raises `ValueError`, and the
`except` catches both it and a decode error — all are `none` here
(`none` = take the fallback). Note the source never inspects the status
code of the generation response. -/
def bifrostAction (g : GenResp) : Option String :=
  match g with
  | .exn _ => none
  | .resp _ json _ =>
    match json with
    | .error _ => none
    | .ok none => none
    | .ok (some s) =>
      let a := pyStrip s
      if a.isEmpty then none else some a

/-- Embeds `openclaw.run_agent` lines 69–71, the fallback inside `except`:
`match = re.search(r'([\w/.-]+\.\w+)', task)` then
`action = match.group(1) if match else (task.split()[-1] if task else "")`.
`task.split()[-1]` raises `IndexError` when the split is empty while `task`
is truthy (whitespace-only task); the `except` block is already active, so
that exception propagates — modelled by `none`. -/
def fallbackAction (task : String) : Option String :=
  match regexSearch task.data with
  | some m => some ⟨m⟩
  | none =>
    if task.isEmpty then some ""
    else (pySplitWs task).getLast?

/-- The proposed action produced by `openclaw.run_agent` lines 60–72
(generation attempt, else fallback); `none` = an uncaught exception. -/
def openclaw_action (task : String) (g : GenResp) : Option String :=
  match bifrostAction g with
  | some a => some a
  | none => fallbackAction task

/-- Outcome of an HTTP request to a policy-gateway validation endpoint:
transport exception, or a response with status code and the decoded
`detail` field of the JSON body (`none` when the body fails to decode or
lacks the field, in which case accessing it raises). -/
inductive GwResp where
  | exn (msg : String)
  | resp (code : Nat) (detail : Option String)

/-- Success status in the sense of the spec's outcome mapping. -/
def gwSuccess (r : GwResp) : Bool :=
  match r with
  | .resp code _ => code == 200
  | .exn _ => false

/-- Embeds `openclaw.ask_gateway` lines 21–36: `True` exactly on status 200; any
other status prints the body's `detail` and returns `False` (and if reading
`detail` raises, the `except` returns `False`); a transport exception
returns `False`. -/
def ask_gateway (r : GwResp) : Bool :=
  match r with
  | .resp code _ => if code == 200 then true else false
  | .exn _ => false

/-- Outcome of opening and reading a local file: its full content, or the
text of the raised exception. -/
inductive FileOutcome where
  | content (s : String)
  | exn (msg : String)

/-- Embeds `openclaw.read_local_file` lines 11–19: the file's content on success,
`"Error reading file: {e}"` on any exception — the function itself never
raises. -/
def read_local_file (fs : FileOutcome) : String :=
  match fs with
  | .content s => s
  | .exn e => "Error reading file: " ++ e

/-- Observable protocol events of one agent run: a policy-gateway
validation call carrying the exact text submitted and whether the caller
took it as allowed, and an execution step carrying the exact text
executed. -/
inductive Event where
  | gatewayCall (text : String) (allowed : Bool)
  | execRead (path : String)
  | execSql (query : String)
deriving DecidableEq

/-- Embeds `openclaw.run_agent` lines 38–96 as an event trace. `gw` is the
gateway oracle (response per submitted prompt). `none` = the run raised
(only possible while computing the action, before any gateway call).
The trace records the gateway call and, only when it was allowed,
the execution of `read_local_file` on the byte-identical path. -/
def openclaw_run (task : String) (g : GenResp) (gw : String → GwResp) :
    Option (List Event) :=
  match openclaw_action task g with
  | none => none
  | some action =>
    if containsS action "I can only read" then some []
    else if ask_gateway (gw ("read file " ++ action)) then
      some [.gatewayCall ("read file " ++ action) true, .execRead action]
    else some [.gatewayCall ("read file " ++ action) false]

/-! ## `sql_guardian.py` -/

/-- A SQLite cell value as surfaced to Python. -/
inductive PyVal where
  | str (s : String)
  | int (n : Int)
  | null
deriving DecidableEq

/-- What one `cursor.execute/fetchall` round observes: the column names of
`cursor.description` (`none` for statements without a result shape) and
the fetched rows, or the raised exception's text. -/
inductive DbOutcome where
  | ok (description : Option (List String)) (rows : List (List PyVal))
  | exn (msg : String)

/-- Python `dict` insertion of one key/value pair: overwrite in place when
the key is present, else append. -/
def pyDictInsert (acc : List (String × PyVal)) (k : String) (v : PyVal) :
    List (String × PyVal) :=
  if acc.any (fun q => q.1 = k) then
    acc.map (fun q => if q.1 = k then (k, v) else q)
  else acc ++ [(k, v)]

/-- Python `dict(pairs)`: fold the pairs into an insertion-ordered map. -/
def pyDict (ps : List (String × PyVal)) : List (String × PyVal) :=
  ps.foldl (fun acc p => pyDictInsert acc p.1 p.2) []

/-- The three shapes `sql_guardian.execute_query` returns: the structure
serialized by `json.dumps(formatted_results, indent=2)`, the literal
sentinel string `"Query executed successfully. No data returned."`, or the
`"Database Error: {e}"` string. -/
inductive QueryResult where
  | data (rows : List (List (String × PyVal)))
  | noData
  | dbError (msg : String)
deriving DecidableEq

/-- Embeds `sql_guardian.execute_query` lines 53–70: on an execution exception,
a `Database Error` result; otherwise `columns` is the first component of
each `cursor.description` entry (or `[]` when the description is `None`),
an empty fetch returns the no-data sentinel, and a nonempty fetch returns
`[dict(zip(columns, row)) for row in results]` (the connection is closed in
`finally` on every path, so the embedding is a plain total function of the
observed outcome). -/
def execute_query (o : DbOutcome) : QueryResult :=
  match o with
  | .exn e => .dbError ("Database Error: " ++ e)
  | .ok description rows =>
    let columns := description.getD []
    if rows.isEmpty then .noData
    else .data (rows.map (fun row => pyDict (columns.zip row)))

/-- Embeds `sql_guardian.run_agent` lines 116–149 as an event trace, starting
from the already-generated SQL text (`none` when `generate_sql` returned
`None`; the empty string is falsy in Python, so `if not sql_query: return`
also stops there).  Status 200 ⇒ execute exactly the validated text;
status 403 prints the body's `detail` (raising into the outer `except` if
it is missing) and aborts; any other status prints an unknown-response
message and aborts; a transport exception aborts. -/
def sql_run (sqlQuery : Option String) (gw : String → GwResp) : List Event :=
  match sqlQuery with
  | none => []
  | some q =>
    if q.isEmpty then []
    else
      match gw q with
      | .resp code _ =>
        if code == 200 then [.gatewayCall q true, .execSql q]
        else [.gatewayCall q false]
      | .exn _ => [.gatewayCall q false]

/-! ## `data_cleaner.py` -/

/-- Embeds `data_cleaner.analyze_with_llm` lines 59–89: status 200 ⇒ decode the
body (a decode exception is caught, yielding the `"Error calling Bifrost:
{e}"` string) and return the stripped content field (defaulting to `""`);
any other status ⇒ the `"Bifrost error: {response.text}"` string; a
transport exception ⇒ `"Error calling Bifrost: {e}"`. -/
def analyze_with_llm (g : GenResp) : String :=
  match g with
  | .exn e => "Error calling Bifrost: " ++ e
  | .resp code json text =>
    if code == 200 then
      match json with
      | .error e => "Error calling Bifrost: " ++ e
      | .ok c => pyStrip (c.getD "")
    else "Bifrost error: " ++ text

/-- Embeds `data_cleaner.run_agent` line 113, the degraded summary: an f-string
over `len(transactions.splitlines())` (here `nLines`) and
`random.randint(3, 8)` (here `rand`, the value the random generator
produced on this invocation). -/
def dcFallback (nLines rand : Nat) : String :=
  "Analysis generated summary (LLM temporarily unavailable): Found "
    ++ toString nLines
    ++ " transactions analyzed. Flagged "
    ++ toString rand
    ++ " suspicious items including large transfers and rapid successive debits."

/-- Embeds `data_cleaner.run_agent` lines 109–113: keep the analysis summary
unless it contains the substring `"Error"`, in which case substitute the
randomized degraded summary. -/
def dc_summary (g : GenResp) (nLines rand : Nat) : String :=
  let summary := analyze_with_llm g
  if containsS summary "Error" then dcFallback nLines rand else summary

/-- Decoded JSON body of the relay/router endpoint's response, each field
`none` when absent. -/
structure RouterBody where
  message : Option String
  clean_payload : Option String
  target_response : Option String

/-- Outcome of the HTTP request to the relay/router endpoint: a transport
exception, or a response with status code, body-decoding result (the body
is only decoded on status 200; `Except.error` carries the text of the
exception `response.json()` would raise), and raw body text. -/
inductive RouterResp where
  | exn (msg : String)
  | resp (code : Nat) (json : Except String RouterBody) (text : String)

/-- Embeds `data_cleaner.run_agent` lines 126–158, the relay step, returning the
result dict as an insertion-ordered list of key/value entries.  Status 200
⇒ decode the body, print `resp_data['message']` (a `KeyError` when it is
missing — Python renders `str(KeyError('message'))` as `'message'` — falls
into the outer `except`), and return the four-entry success dict built
from `summary` and the defaulting `get`s of `clean_payload` and
`target_response`; any other status ⇒ the blocked dict carrying
`response.text` as reason; an exception ⇒ the error dict. -/
def dc_relay (summary : String) (r : RouterResp) : List (String × String) :=
  match r with
  | .exn e => [("status", "error"), ("reason", e)]
  | .resp code json text =>
    if code == 200 then
      match json with
      | .error e => [("status", "error"), ("reason", e)]
      | .ok body =>
        match body.message with
        | none => [("status", "error"), ("reason", "'message'")]
        | some _ =>
          [("status", "success"),
           ("raw_summary", summary),
           ("clean_payload_forwarded", body.clean_payload.getD ""),
           ("validator_report", body.target_response.getD "")]
    else [("status", "blocked"), ("reason", text)]

/-! ## `validator.py` -/

/-- Embeds `validator.generate_compliance_report` lines 37–70: status 200 ⇒ the
stripped content field (defaulting to `""`; a body-decode exception is
caught, yielding the `"Error generating report: {e}"` string); any other
status ⇒ `"Bifrost error: {response.text}"`; a transport exception ⇒
`"Error generating report: {e}"`. -/
def generate_compliance_report (g : GenResp) : String :=
  match g with
  | .exn e => "Error generating report: " ++ e
  | .resp code json text =>
    if code == 200 then
      match json with
      | .error e => "Error generating report: " ++ e
      | .ok c => pyStrip (c.getD "")
    else "Bifrost error: " ++ text

/-- Embeds `validator.run_agent` lines 110–146, the static substitute report:
an f-string over `datetime.now().strftime('%Y-%m-%d %H:%M:%S')` (`now`),
`format_type.upper()` and `datetime.now().strftime('%Y%m%d%H%M%S')`
(`ts`), transcribed byte for byte (including the leading newline, the
trailing run of spaces, and the trailing space after "based on"). -/
def fallback_template (now fmt ts : String) : String :=
  "\nFINANCIAL COMPLIANCE REPORT\n===========================\nGenerated: "
    ++ now
    ++ "\nReport Type: "
    ++ pyUpper fmt
    ++ "\n\nEXECUTIVE SUMMARY\n-----------------\nThe analysis identified several transactions requiring review based on \nthe anonymized suspicious activity summary provided by the Data Cleaner agent.\n\nKEY FINDINGS\n------------\n1. Large Value Transactions: Multiple transactions exceeding $10,000 flagged\n2. Pattern Analysis: Unusual timing and frequency detected\n3. Risk Categories: High-value transfers, offshore destinations\n\nRISK ASSESSMENT\n---------------\n- HIGH: Wire transfers over $25,000 to unfamiliar recipients\n- MEDIUM: Multiple large debits within short timeframes\n- LOW: Standard merchant transactions\n\nRECOMMENDED ACTIONS\n-------------------\n1. Require secondary authorization for transactions over $10,000\n2. Verify source of funds for offshore transfers\n3. Implement 24-hour hold for wire transfers exceeding $25,000\n4. File Suspicious Activity Report (SAR) for ACC-OFFSHORE transfers\n\nCOMPLIANCE NOTES\n---------------\nAll data has been anonymized in compliance with PII protection requirements.\nThis report is suitable for regulatory submission.\n\nReport ID: RPT-"
    ++ ts
    ++ "\n        "

/-- Embeds `validator.run_agent` lines 107–146: the report kept when it contains
neither `"Error"` nor `"error"`, else the static substitute. -/
def validator_report (g : GenResp) (now ts fmt : String) : String :=
  let report := generate_compliance_report g
  if containsS report "Error" || containsS report "error" then
    fallback_template now fmt ts
  else report

/-- Embeds `validator.run_agent` lines 150–153: the returned dict, always with
status `"success"`. -/
def validator_run (g : GenResp) (now ts fmt : String) : List (String × String) :=
  [("status", "success"), ("report", validator_report g now ts fmt)]

/-! ## Helper lemmas -/

lemma containsL_nil_needle (hay : List Char) : containsL hay [] = true := by
  cases hay with
  | nil => rfl
  | cons c rest => simp [containsL, startsWithL]

lemma startsWithL_append (a b m : List Char) (h : startsWithL a m = true) :
    startsWithL (a ++ b) m = true := by
  induction m generalizing a with
  | nil => simp [startsWithL]
  | cons d ds ih =>
    cases a with
    | nil => simp [startsWithL] at h
    | cons c cs =>
      simp only [startsWithL, Bool.and_eq_true] at h
      simp only [List.cons_append, startsWithL, Bool.and_eq_true]
      exact ⟨h.1, ih cs h.2⟩

lemma containsL_append_left (a b m : List Char) (h : containsL a m = true) :
    containsL (a ++ b) m = true := by
  induction a with
  | nil =>
    simp only [containsL] at h
    rw [List.isEmpty_iff] at h
    subst h
    exact containsL_nil_needle b
  | cons c cs ih =>
    simp only [containsL, Bool.or_eq_true] at h
    rcases h with h | h
    · simp only [List.cons_append, containsL, Bool.or_eq_true]
      exact Or.inl (startsWithL_append (c :: cs) b m h)
    · simp only [List.cons_append, containsL, Bool.or_eq_true]
      exact Or.inr (ih h)

lemma containsS_append_left (a b m : String) (h : containsS a m = true) :
    containsS (a ++ b) m = true := by
  unfold containsS at h ⊢
  rw [String.data_append]
  exact containsL_append_left a.data b.data m.data h

lemma template_contains_financial (now fmt ts : String) :
    containsS (fallback_template now fmt ts) "FINANCIAL" = true := by
  unfold fallback_template
  apply containsS_append_left
  apply containsS_append_left
  apply containsS_append_left
  apply containsS_append_left
  apply containsS_append_left
  apply containsS_append_left
  decide

lemma pyDictInsert_of_not_mem (acc : List (String × PyVal)) (k : String) (v : PyVal)
    (h : ∀ q ∈ acc, q.1 ≠ k) : pyDictInsert acc k v = acc ++ [(k, v)] := by
  unfold pyDictInsert
  rw [if_neg]
  intro hc
  rw [List.any_eq_true] at hc
  obtain ⟨q, hq, hqk⟩ := hc
  exact h q hq (of_decide_eq_true hqk)

lemma pyDict_go (ps : List (String × PyVal)) :
    ∀ acc : List (String × PyVal), (ps.map Prod.fst).Nodup →
    (∀ q ∈ acc, ∀ p ∈ ps, q.1 ≠ p.1) →
    ps.foldl (fun a p => pyDictInsert a p.1 p.2) acc = acc ++ ps := by
  induction ps with
  | nil => intro acc _ _; simp
  | cons p ps ih =>
    intro acc hnd hdisj
    simp only [List.foldl_cons]
    rw [pyDictInsert_of_not_mem acc p.1 p.2
      (fun q hq => hdisj q hq p (List.mem_cons_self p ps))]
    rw [ih (acc ++ [(p.1, p.2)])
      (by simpa using (List.nodup_cons.mp (by simpa using hnd)).2)]
    · simp
    · intro q hq p' hp'
      rcases List.mem_append.mp hq with hq | hq
      · exact hdisj q hq p' (List.mem_cons_of_mem p hp')
      · have hqp : q = (p.1, p.2) := by simpa using hq
        subst hqp
        have hnotin : p.1 ∉ ps.map Prod.fst :=
          (List.nodup_cons.mp (by simpa using hnd)).1
        intro heq
        apply hnotin
        rw [heq]
        exact List.mem_map_of_mem Prod.fst hp'

lemma pyDict_of_nodup_keys (ps : List (String × PyVal))
    (hnd : (ps.map Prod.fst).Nodup) : pyDict ps = ps := by
  unfold pyDict
  rw [pyDict_go ps [] hnd (by intro q hq; simp at hq)]
  simp

lemma ask_gateway_eq_gwSuccess (r : GwResp) : ask_gateway r = gwSuccess r := by
  cases r with
  | resp c d => cases h : c == 200 <;> simp [ask_gateway, gwSuccess, h]
  | exn m => rfl

/-! ## Claim theorems -/

/-- C1: in every run of either agent, an execution event is immediately
preceded by a policy-gateway call that the caller took as allowed, and the
text of that call is determined byte for byte by the executed text: for
the SQL agent it IS the executed query, and for the file agent it is
`"read file "` followed by the executed path (so the validated and the
executed action text coincide — no validate-then-substitute); on a blocked
or unknown decision no execution event exists at all. -/
theorem c1_exec_only_after_allow :
    (∀ (task : String) (g : GenResp) (gw : String → GwResp) (tr : List Event),
        openclaw_run task g gw = some tr →
        ∀ (i : Nat) (p : String), tr.get? i = some (.execRead p) →
          ∃ j, i = j + 1 ∧ tr.get? j = some (.gatewayCall ("read file " ++ p) true))
  ∧ (∀ (sq : Option String) (gw : String → GwResp) (i : Nat) (q : String),
        (sql_run sq gw).get? i = some (.execSql q) →
          ∃ j, i = j + 1 ∧ (sql_run sq gw).get? j = some (.gatewayCall q true)) := by
  constructor
  · intro task g gw tr h i p hi
    unfold openclaw_run at h
    cases ha : openclaw_action task g with
    | none => rw [ha] at h; cases h
    | some action =>
      rw [ha] at h
      dsimp only at h
      by_cases hc : containsS action "I can only read" = true
      · rw [if_pos hc] at h
        injection h with h
        subst h
        simp at hi
      · rw [if_neg hc] at h
        by_cases hg : ask_gateway (gw ("read file " ++ action)) = true
        · rw [if_pos hg] at h
          injection h with h
          subst h
          match i, hi with
          | 0, hi => simp at hi
          | 1, hi =>
            simp only [List.get?] at hi
            injection hi with hi
            injection hi with hi
            subst hi
            exact ⟨0, rfl, by simp⟩
          | n + 2, hi => simp at hi
        · rw [if_neg hg] at h
          injection h with h
          subst h
          match i, hi with
          | 0, hi => simp at hi
          | n + 1, hi => simp at hi
  · intro sq gw i q hi
    cases sq with
    | none => simp [sql_run] at hi
    | some s =>
      unfold sql_run at hi
      dsimp only at hi
      by_cases he : s.isEmpty = true
      · rw [if_pos he] at hi
        simp at hi
      · rw [if_neg he] at hi
        cases hgw : gw s with
        | resp c d =>
          rw [hgw] at hi
          dsimp only at hi
          by_cases hc : (c == 200) = true
          · rw [if_pos hc] at hi
            match i, hi with
            | 0, hi => simp at hi
            | 1, hi =>
              simp only [List.get?] at hi
              injection hi with hi
              injection hi with hi
              subst hi
              exact ⟨0, rfl, by simp [sql_run, he, hgw, hc]⟩
            | n + 2, hi => simp at hi
          · rw [if_neg hc] at hi
            match i, hi with
            | 0, hi => simp at hi
            | n + 1, hi => simp at hi
        | exn m =>
          rw [hgw] at hi
          dsimp only at hi
          match i, hi with
          | 0, hi => simp at hi
          | n + 1, hi => simp at hi

/-- Witness for C1: concrete allowed runs of both agents, with the
execution event at index 1 and the allowed gateway call at index 0. -/
theorem c1_witness :
    (openclaw_run "summarize report.csv" (GenResp.exn "down")
        (fun _ => GwResp.resp 200 none)
      = some [Event.gatewayCall "read file report.csv" true,
              Event.execRead "report.csv"]) ∧
    (∃ j, 1 = j + 1 ∧
      ([Event.gatewayCall "read file report.csv" true,
        Event.execRead "report.csv"].get? j
        = some (Event.gatewayCall ("read file " ++ "report.csv") true))) ∧
    (∃ j, 1 = j + 1 ∧
      ((sql_run (some "SELECT * FROM orders") (fun _ => GwResp.resp 200 none)).get? j
        = some (Event.gatewayCall "SELECT * FROM orders" true))) :=
  ⟨by decide,
   c1_exec_only_after_allow.1 "summarize report.csv" (GenResp.exn "down")
     (fun _ => GwResp.resp 200 none)
     [Event.gatewayCall "read file report.csv" true, Event.execRead "report.csv"]
     (by decide) 1 "report.csv" (by decide),
   c1_exec_only_after_allow.2 (some "SELECT * FROM orders")
     (fun _ => GwResp.resp 200 none) 1 "SELECT * FROM orders" (by decide)⟩

/-- C2: every gateway outcome that is not an explicit success status —
another HTTP status, a body-decoding failure, or a transport exception —
is handled fail-closed: `ask_gateway` answers `false` exactly as on an
explicit deny, and in both agents an execution event can exist only when
the gateway response for the executed text was a success status. -/
theorem c2_fail_closed :
    (∀ r : GwResp, ask_gateway r = gwSuccess r)
  ∧ (∀ (sq : Option String) (gw : String → GwResp) (i : Nat) (q : String),
        (sql_run sq gw).get? i = some (.execSql q) → gwSuccess (gw q) = true)
  ∧ (∀ (task : String) (g : GenResp) (gw : String → GwResp) (tr : List Event)
        (i : Nat) (p : String), openclaw_run task g gw = some tr →
        tr.get? i = some (.execRead p) →
        gwSuccess (gw ("read file " ++ p)) = true) := by
  refine ⟨ask_gateway_eq_gwSuccess, ?_, ?_⟩
  · intro sq gw i q hi
    cases sq with
    | none => simp [sql_run] at hi
    | some s =>
      unfold sql_run at hi
      dsimp only at hi
      by_cases he : s.isEmpty = true
      · rw [if_pos he] at hi
        simp at hi
      · rw [if_neg he] at hi
        cases hgw : gw s with
        | resp c d =>
          rw [hgw] at hi
          dsimp only at hi
          by_cases hc : (c == 200) = true
          · rw [if_pos hc] at hi
            match i, hi with
            | 0, hi => simp at hi
            | 1, hi =>
              simp only [List.get?] at hi
              injection hi with hi
              injection hi with hi
              subst hi
              rw [hgw]
              simpa [gwSuccess] using hc
            | n + 2, hi => simp at hi
          · rw [if_neg hc] at hi
            match i, hi with
            | 0, hi => simp at hi
            | n + 1, hi => simp at hi
        | exn m =>
          rw [hgw] at hi
          dsimp only at hi
          match i, hi with
          | 0, hi => simp at hi
          | n + 1, hi => simp at hi
  · intro task g gw tr i p h hi
    unfold openclaw_run at h
    cases ha : openclaw_action task g with
    | none => rw [ha] at h; cases h
    | some action =>
      rw [ha] at h
      dsimp only at h
      by_cases hc : containsS action "I can only read" = true
      · rw [if_pos hc] at h
        injection h with h
        subst h
        simp at hi
      · rw [if_neg hc] at h
        by_cases hg : ask_gateway (gw ("read file " ++ action)) = true
        · rw [if_pos hg] at h
          injection h with h
          subst h
          match i, hi with
          | 0, hi => simp at hi
          | 1, hi =>
            simp only [List.get?] at hi
            injection hi with hi
            injection hi with hi
            subst hi
            rw [← ask_gateway_eq_gwSuccess]
            exact hg
          | n + 2, hi => simp at hi
        · rw [if_neg hg] at h
          injection h with h
          subst h
          match i, hi with
          | 0, hi => simp at hi
          | n + 1, hi => simp at hi

/-- Witness for C2: concrete executions imply the gateway returned a
success status for the executed text. -/
theorem c2_witness :
    gwSuccess ((fun _ => GwResp.resp 200 (some "ok")) "SELECT * FROM orders") = true ∧
    gwSuccess ((fun _ => GwResp.resp 200 (some "ok")) ("read file " ++ "report.csv")) = true :=
  ⟨c2_fail_closed.2.1 (some "SELECT * FROM orders")
     (fun _ => GwResp.resp 200 (some "ok")) 1 "SELECT * FROM orders" (by decide),
   c2_fail_closed.2.2 "summarize report.csv" (GenResp.exn "down")
     (fun _ => GwResp.resp 200 (some "ok"))
     [Event.gatewayCall "read file report.csv" true, Event.execRead "report.csv"]
     1 "report.csv" (by decide) (by decide)⟩

/-- C5: for an execution outcome with `N > 0` fetched rows and distinct
column names (each row as wide as the column list, as SQLite delivers),
`execute_query` returns the `data` structure of exactly `N` row-mappings,
each pairing the column names with that row's values in column order, with
row order preserved; an empty fetch returns the distinguished no-data
sentinel, which differs from an empty `data` collection. -/
theorem c5_execute_query_shape (cols : List String) (rows : List (List PyVal))
    (hnd : cols.Nodup) (hlen : ∀ r ∈ rows, r.length = cols.length) :
    (rows ≠ [] →
      execute_query (.ok (some cols) rows)
        = .data (rows.map (fun r => cols.zip r))
      ∧ (rows.map (fun r => cols.zip r)).length = rows.length
      ∧ ∀ r ∈ rows, (cols.zip r).map Prod.fst = cols)
    ∧ execute_query (.ok (some cols) []) = .noData
    ∧ (QueryResult.noData ≠ .data []) := by
  refine ⟨?_, rfl, by intro h; cases h⟩
  intro hne
  have hzip : ∀ r ∈ rows, pyDict (cols.zip r) = cols.zip r := by
    intro r hr
    apply pyDict_of_nodup_keys
    rw [List.map_fst_zip cols r (le_of_eq (hlen r hr).symm)]
    exact hnd
  refine ⟨?_, by rw [List.length_map], ?_⟩
  · unfold execute_query
    dsimp only
    rw [if_neg (by simpa [List.isEmpty_iff] using hne)]
    simp only [Option.getD_some, QueryResult.data.injEq]
    exact List.map_congr_left hzip
  · intro r hr
    exact List.map_fst_zip cols r (le_of_eq (hlen r hr).symm)

/-- Witness for C5 at a concrete two-row result set. -/
theorem c5_witness :
    execute_query (.ok (some ["id", "product"])
        [[PyVal.int 1, PyVal.str "Laptop"], [PyVal.int 2, PyVal.str "Mouse"]])
      = .data [[("id", PyVal.int 1), ("product", PyVal.str "Laptop")],
               [("id", PyVal.int 2), ("product", PyVal.str "Mouse")]] ∧
    execute_query (.ok (some ["id", "product"]) []) = .noData :=
  have h := c5_execute_query_shape ["id", "product"]
    [[PyVal.int 1, PyVal.str "Laptop"], [PyVal.int 2, PyVal.str "Mouse"]]
    (by decide) (by decide)
  ⟨by have h1 := (h.1 (by decide)).1; simpa using h1, h.2.1⟩

set_option maxRecDepth 100000 in
/-- C8 (counterexample): when the validator's generation call fails, the
locally synthesized report is returned with status `"success"` and carries
no degraded-mode marker: it contains none of the marker words
(`degraded`, `unavailable`, `fallback` — the data_cleaner's own degraded
output does contain `unavailable`), and a genuine model report carrying
the same `FINANCIAL COMPLIANCE REPORT` heading is passed through
unchanged, so nothing in the substituted output distinguishes it from
genuine model output. -/
theorem c8_validator_fallback_unmarked :
    validator_run (GenResp.exn "boom") "2024-01-15 10:00:00" "20240115100000" "detailed"
      = [("status", "success"),
         ("report", fallback_template "2024-01-15 10:00:00" "detailed" "20240115100000")] ∧
    containsS (fallback_template "2024-01-15 10:00:00" "detailed" "20240115100000")
      "degraded" = false ∧
    containsS (fallback_template "2024-01-15 10:00:00" "detailed" "20240115100000")
      "unavailable" = false ∧
    containsS (fallback_template "2024-01-15 10:00:00" "detailed" "20240115100000")
      "fallback" = false ∧
    validator_report
        (GenResp.resp 200 (.ok (some "FINANCIAL COMPLIANCE REPORT\nAll reviewed transfers were consistent with customer profiles.")) "")
        "2024-01-15 10:00:00" "20240115100000" "detailed"
      = "FINANCIAL COMPLIANCE REPORT\nAll reviewed transfers were consistent with customer profiles." := by
  refine ⟨?_, by decide, by decide, by decide, by decide⟩
  have h : containsS (generate_compliance_report (GenResp.exn "boom")) "Error" = true := by
    decide
  simp [validator_run, validator_report, h]

/-- C8 (amended): the data_cleaner's degraded summary does carry the
explicit marker `"(LLM temporarily unavailable)"` for every input size and
random draw; the validator's substituted report carries no such marker
(see the counterexample). -/
theorem c8_data_cleaner_marker (nLines rand : Nat) :
    containsS (dcFallback nLines rand) "(LLM temporarily unavailable)" = true := by
  unfold dcFallback
  apply containsS_append_left
  apply containsS_append_left
  apply containsS_append_left
  apply containsS_append_left
  decide

/-- C3: whenever the generation attempt of `openclaw.run_agent` fails to
produce an action (transport error, body-decode error, or a missing/empty
content field — the source never inspects the status code, so a
non-success status surfaces as one of these), the fallback extraction on
the task `"summarize report.csv"` yields exactly `"report.csv"`. -/
theorem c3_fallback_extracts_report_csv (g : GenResp)
    (h : bifrostAction g = none) :
    openclaw_action "summarize report.csv" g = some "report.csv" := by
  unfold openclaw_action
  rw [h]
  decide

/-- Witness for C3 at a concrete transport failure. -/
theorem c3_witness :
    bifrostAction (GenResp.exn "connection refused") = none ∧
    openclaw_action "summarize report.csv" (GenResp.exn "connection refused")
      = some "report.csv" :=
  ⟨rfl, c3_fallback_extracts_report_csv (GenResp.exn "connection refused") rfl⟩

/-- C4 (code bug): on the whitespace-only task `" "` with a failed
generation call, the fallback of `openclaw.run_agent` raises an uncaught
`IndexError`: the regex finds no match, `task` is truthy, and
`task.split()` is empty, so `task.split()[-1]` raises inside the active
`except` block.  The embedding returns `none` exactly on an uncaught
exception, and does so here — contradicting "never raises". -/
theorem c4_whitespace_task_raises :
    fallbackAction " " = none ∧
    openclaw_action " " (GenResp.exn "connection refused") = none ∧
    openclaw_run " " (GenResp.exn "connection refused")
      (fun _ => GwResp.resp 200 none) = none := by
  refine ⟨rfl, rfl, rfl⟩

/-- C6 (counterexample): on a success response carrying
`clean_payload = "X"` and `target_response = "Y"`, the result of
`data_cleaner.run_agent` is not the three-entry record claimed: it also
carries the `raw_summary` entry. -/
theorem c6_result_not_three_fields :
    dc_relay "S" (RouterResp.resp 200 (.ok ⟨some "routed", some "X", some "Y"⟩) "")
      ≠ [("status", "success"), ("clean_payload_forwarded", "X"),
         ("validator_report", "Y")] := by
  decide

/-- C6 (amended): on a success response whose body carries a `message`
field and `clean_payload = X`, `target_response = Y`, the relay step
returns status `success` with `clean_payload_forwarded = X` and
`validator_report = Y` — plus a `raw_summary` entry holding the summary
that was forwarded. -/
theorem c6_success_mapping (summary m X Y text : String) :
    dc_relay summary (RouterResp.resp 200 (.ok ⟨some m, some X, some Y⟩) text)
      = [("status", "success"), ("raw_summary", summary),
         ("clean_payload_forwarded", X), ("validator_report", Y)] := rfl

/-- C7: `read_local_file` is a total function of the file outcome — on
success it returns the full content unchanged, and on any failure it
returns the `"Error reading file: "` result carrying the raised error's
text; no outcome is left unhandled, so no exception propagates. -/
theorem c7_read_local_file_never_raises :
    (∀ s, read_local_file (FileOutcome.content s) = s) ∧
    (∀ e, read_local_file (FileOutcome.exn e)
      = "Error reading file: " ++ e) :=
  ⟨fun _ => rfl, fun _ => rfl⟩

/-- C9 (counterexample): the `data_cleaner` fallback summary is not
deterministic — two invocations on the identical failed generation
outcome and identical transaction input (50 log lines), whose random
draws `randint(3,8)` differ (3 vs 4, both in range), produce different
output. -/
theorem c9_data_cleaner_fallback_random :
    dc_summary (GenResp.exn "timeout") 50 3
      ≠ dc_summary (GenResp.exn "timeout") 50 4 := by
  decide

/-- C9 (amended): the openclaw Intent-Generator fallback is deterministic:
two invocations with the same task text whose generation attempts both
fail produce identical proposed actions, whatever the two failures were —
the fallback reads nothing but the task text. -/
theorem c9_openclaw_fallback_deterministic (task : String) (g₁ g₂ : GenResp)
    (h₁ : bifrostAction g₁ = none) (h₂ : bifrostAction g₂ = none) :
    openclaw_action task g₁ = openclaw_action task g₂ := by
  unfold openclaw_action
  rw [h₁, h₂]

/-- Witness for the amended C9: a transport failure and a decode failure
lead to the same extracted action. -/
theorem c9_witness :
    bifrostAction (GenResp.exn "timeout") = none ∧
    bifrostAction (GenResp.resp 500 (.ok none) "busy") = none ∧
    openclaw_action "summarize report.csv" (GenResp.exn "timeout")
      = openclaw_action "summarize report.csv" (GenResp.resp 500 (.ok none) "busy") :=
  ⟨rfl, rfl,
    c9_openclaw_fallback_deterministic "summarize report.csv"
      (GenResp.exn "timeout") (GenResp.resp 500 (.ok none) "busy") rfl rfl⟩

/-- C10: the validator detects generation failure by substring-matching
`"Error"`/`"error"`, so the genuine successful model report
`"No errors were identified in the reviewed transfers."` is classified as
a failure, discarded, and replaced by the static fallback template, while
the returned status is still `"success"`. -/
theorem c10_error_substring_misclassifies :
    generate_compliance_report
        (GenResp.resp 200 (.ok (some "No errors were identified in the reviewed transfers.")) "")
      = "No errors were identified in the reviewed transfers." ∧
    validator_run
        (GenResp.resp 200 (.ok (some "No errors were identified in the reviewed transfers.")) "")
        "2024-01-15 10:00:00" "20240115100000" "detailed"
      = [("status", "success"),
         ("report", fallback_template "2024-01-15 10:00:00" "detailed" "20240115100000")] ∧
    fallback_template "2024-01-15 10:00:00" "detailed" "20240115100000"
      ≠ "No errors were identified in the reviewed transfers." := by
  refine ⟨by decide, ?_, ?_⟩
  · have h : containsS (generate_compliance_report
        (GenResp.resp 200 (.ok (some "No errors were identified in the reviewed transfers.")) ""))
        "error" = true := by decide
    simp [validator_run, validator_report, h]
  · intro h
    have h1 := template_contains_financial "2024-01-15 10:00:00" "detailed" "20240115100000"
    rw [h] at h1
    have h2 : containsS "No errors were identified in the reviewed transfers."
        "FINANCIAL" = false := by decide
    rw [h1] at h2
    exact absurd h2 (by simp)

end OpenSec

